import Mathlib

/-!
Shallow embedding of the Textify backend (src/backend/server.js), covering the
OTP issuance/verification handlers and the profile create/update/get handlers.

Request-body fields arrive as JavaScript values; we model the ones the handlers
inspect (the submitted OTP can be a string or a JSON number) together with JS
truthiness and strict equality.  The two in-memory stores (`otpStore`,
`userStore`) are partial maps from phone-number strings.  Clock readings
(`Date.now()`) and the random draw of `crypto.randomInt` are passed in as
explicit parameters; the SMS delivery outcome is an `Option String` (`some e`
when the Twilio call throws error `e`).
-/

/-- Subset of JavaScript values a client can submit in the `otp` field of the
JSON body: a string, a number, or absent. -/
inductive JsVal where
  | vStr (s : String)
  | vNum (n : Int)
  | undef
deriving DecidableEq, Repr

/-- JavaScript truthiness for the modelled values: `""`, `0` and `undefined`
are falsy. -/
def JsVal.truthy : JsVal → Bool
  | .vStr s => s ≠ ""
  | .vNum n => n ≠ 0
  | .undef => false

/-- JavaScript strict equality (`===`) between a stored code string and a
submitted value: true only for the identical string; a number is never
strictly equal to a string. -/
def strictEqStr (s : String) : JsVal → Bool
  | .vStr t => s = t
  | _ => false

/-- Entry of `otpStore`: `{ otp, expiry }` as written by POST /api/send-otp. -/
structure OtpRecord where
  otp : String
  expiry : Int
deriving DecidableEq, Repr

/-- The in-memory `otpStore` object: phone number → record. -/
abbrev OtpStore := String → Option OtpRecord

def emptyOtpStore : OtpStore := fun _ => none

/-- Property assignment `otpStore[k] = v`. -/
def OtpStore.set (st : OtpStore) (k : String) (v : OtpRecord) : OtpStore :=
  fun x => if x = k then some v else st x

/-- Property removal `delete otpStore[k]`. -/
def OtpStore.del (st : OtpStore) (k : String) : OtpStore :=
  fun x => if x = k then none else st x

/-- Model of Node's `crypto.randomInt(lo, hi)`: the possible draws are the
integers `n` with `lo ≤ n < hi` (the upper bound is exclusive). -/
def randomIntPossible (lo hi n : Nat) : Bool := lo ≤ n && n < hi

/-- The draws of `crypto.randomInt(100000, 999999)` in POST /api/send-otp. -/
def otpCodePossible (n : Nat) : Bool := randomIntPossible 100000 999999 n

/-- The TTL written by POST /api/send-otp: `5 * 60 * 1000` milliseconds. -/
def otpTtlMs : Int := 5 * 60 * 1000

/-- The generic client-facing message attached on SMS delivery failure. -/
def sendFailureClientMessage : String :=
  "Failed to send OTP. Please check the phone number and try again."

/-- Outcome of POST /api/send-otp. -/
inductive SendResult where
  | validationError (msg : String)
  | sent (msg : String)
  | sendFailed (msg : String)
deriving DecidableEq, Repr

/-- POST /api/send-otp handler.  `now` is `Date.now()` at the store write,
`code` the draw of `crypto.randomInt(100000, 999999)`, `deliveryError` is
`some e` when `client.messages.create` throws `e` (the record is written
before the send, and the catch block only sets a generic client message). -/
def sendOtp (store : OtpStore) (now : Int) (phoneNumber : String) (code : Nat)
    (deliveryError : Option String) : SendResult × OtpStore :=
  if phoneNumber = "" then
    (.validationError "Phone number is required.", store)
  else
    let otp := toString code
    let expiry := now + otpTtlMs
    let store' := store.set phoneNumber ⟨otp, expiry⟩
    match deliveryError with
    | none => (.sent "OTP sent successfully.", store')
    | some _ => (.sendFailed sendFailureClientMessage, store')

/-- Outcome of POST /api/verify-otp; the four failures map to the 400
responses of the handler and `verified` to the success response. -/
inductive VerifyResult where
  | validationError
  | notFound
  | expired
  | mismatch
  | verified
deriving DecidableEq, Repr

/-- POST /api/verify-otp handler.  `now` is `Date.now()` at the expiry check;
the submitted `otp` is compared by `storedOtpData.otp.toString() === otp`
(the stored code is already a string, so `toString` is the identity). -/
def verifyOtp (store : OtpStore) (now : Int) (phoneNumber : String) (otp : JsVal) :
    VerifyResult × OtpStore :=
  if phoneNumber = "" || !otp.truthy then (.validationError, store)
  else
    match store phoneNumber with
    | none => (.notFound, store)
    | some storedOtpData =>
      if now > storedOtpData.expiry then (.expired, store)
      else if strictEqStr storedOtpData.otp otp then
        (.verified, store.del phoneNumber)
      else (.mismatch, store)

/-- Entry of `userStore`.  POST writes `{ name, profilePicture }` (no `about`
key, modelled as `none`); PUT may add `about`. -/
structure ProfileRecord where
  name : String
  about : Option String
  profilePicture : Option String
deriving DecidableEq, Repr

/-- The in-memory `userStore` object: phone number → profile record. -/
abbrev UserStore := String → Option ProfileRecord

def emptyUserStore : UserStore := fun _ => none

/-- Property assignment `userStore[k] = v`. -/
def UserStore.set (st : UserStore) (k : String) (v : ProfileRecord) : UserStore :=
  fun x => if x = k then some v else st x

/-- Outcome of the profile handlers. -/
inductive ProfileResult where
  | validationError (msg : String)
  | notFound (msg : String)
  | ok (msg : String)
deriving DecidableEq, Repr

/-- POST /api/profile handler: requires truthy `name` and `phoneNumber`, then
unconditionally assigns `userStore[phoneNumber] = { name, profilePicture }`.
`file` is the multer upload path (`req.file ? req.file.path : null`). -/
def postProfile (store : UserStore) (name phoneNumber : Option String)
    (file : Option String) : ProfileResult × UserStore :=
  match name, phoneNumber with
  | some nm, some ph =>
    if nm = "" || ph = "" then
      (.validationError "Name and phone number are required.", store)
    else
      (.ok "Profile updated successfully.",
       store.set ph { name := nm, about := none, profilePicture := file })
  | _, _ => (.validationError "Name and phone number are required.", store)

/-- Field updates applied by the PUT handler to an existing record: each of
`name`, `about` is written only when truthy (`if (name)`, `if (about)`), the
picture only when a file was uploaded (`if (req.file)`). -/
def applyPut (user : ProfileRecord) (name about file : Option String) :
    ProfileRecord :=
  let u1 := match name with
    | some s => if s = "" then user else { user with name := s }
    | none => user
  let u2 := match about with
    | some s => if s = "" then u1 else { u1 with about := some s }
    | none => u1
  match file with
  | some p => { u2 with profilePicture := some p }
  | none => u2

/-- PUT /api/profile/:phoneNumber handler: 404 when no record exists for the
key, otherwise the field updates of `applyPut` are applied and the record is
stored back. -/
def putProfile (store : UserStore) (phoneNumber : String)
    (name about file : Option String) : ProfileResult × UserStore :=
  match store phoneNumber with
  | none => (.notFound "User not found.", store)
  | some user =>
    (.ok "Profile updated successfully.",
     store.set phoneNumber (applyPut user name about file))

/-- GET /api/profile/:phoneNumber handler: the looked-up record, `none`
meaning the 404 response. -/
def getProfile (store : UserStore) (phoneNumber : String) : Option ProfileRecord :=
  store phoneNumber

theorem applyPut_name_of_none (u : ProfileRecord) (ab f : Option String) :
    (applyPut u none ab f).name = u.name := by
  rcases ab with _ | s <;> rcases f with _ | p <;> simp [applyPut] <;>
    split <;> rfl

theorem applyPut_about_of_none (u : ProfileRecord) (nm f : Option String) :
    (applyPut u nm none f).about = u.about := by
  rcases nm with _ | t <;> rcases f with _ | p <;> simp [applyPut] <;>
    split <;> rfl

theorem applyPut_pic_of_none (u : ProfileRecord) (nm ab : Option String) :
    (applyPut u nm ab none).profilePicture = u.profilePicture := by
  rcases nm with _ | t <;> rcases ab with _ | s <;> simp only [applyPut] <;>
    (try split_ifs) <;> simp

theorem applyPut_name_of_some (u : ProfileRecord) (s : String)
    (ab f : Option String) (hs : s ≠ "") :
    (applyPut u (some s) ab f).name = s := by
  rcases ab with _ | t <;> rcases f with _ | p <;> simp [applyPut, hs] <;>
    split <;> rfl

theorem applyPut_about_of_some (u : ProfileRecord) (s : String)
    (nm f : Option String) (hs : s ≠ "") :
    (applyPut u nm (some s) f).about = some s := by
  rcases nm with _ | t <;> rcases f with _ | p <;> simp [applyPut, hs]

theorem applyPut_pic_of_some (u : ProfileRecord) (p : String)
    (nm ab : Option String) :
    (applyPut u nm ab (some p)).profilePicture = some p := by
  rcases nm with _ | t <;> rcases ab with _ | s <;> simp [applyPut]

theorem applyPut_name_empty (u : ProfileRecord) (ab f : Option String) :
    applyPut u (some "") ab f = applyPut u none ab f := by
  simp [applyPut]

theorem applyPut_about_empty (u : ProfileRecord) (nm f : Option String) :
    applyPut u nm (some "") f = applyPut u nm none f := by
  simp [applyPut]

/-- Claim C1: issuing an OTP for a phone number and then verifying with the
stored code before expiry succeeds and deletes the record, so that a second
verification with the same code fails with NotFound. -/
theorem c1_issue_verify_single_use (store : OtpStore) (t0 t1 t2 : Int)
    (phone : String) (code : Nat) (de : Option String)
    (hphone : phone ≠ "") (hcode : toString code ≠ "")
    (ht1 : t1 ≤ t0 + otpTtlMs) :
    (verifyOtp ((sendOtp store t0 phone code de).2) t1 phone
        (.vStr (toString code))).1 = .verified ∧
    (verifyOtp ((sendOtp store t0 phone code de).2) t1 phone
        (.vStr (toString code))).2 phone = none ∧
    (verifyOtp
        ((verifyOtp ((sendOtp store t0 phone code de).2) t1 phone
          (.vStr (toString code))).2)
        t2 phone (.vStr (toString code))).1 = .notFound := by
  have hnot : ¬ t1 > t0 + otpTtlMs := by omega
  cases de <;>
    simp [sendOtp, verifyOtp, OtpStore.set, OtpStore.del, JsVal.truthy,
      strictEqStr, hphone, hcode, hnot]

/-- Claim C1 witness. -/
theorem c1_issue_verify_single_use_witness :
    (verifyOtp ((sendOtp emptyOtpStore 0 "+1" 123456 none).2) 10 "+1"
        (.vStr (toString 123456))).1 = .verified ∧
    (verifyOtp ((sendOtp emptyOtpStore 0 "+1" 123456 none).2) 10 "+1"
        (.vStr (toString 123456))).2 "+1" = none ∧
    (verifyOtp
        ((verifyOtp ((sendOtp emptyOtpStore 0 "+1" 123456 none).2) 10 "+1"
          (.vStr (toString 123456))).2)
        20 "+1" (.vStr (toString 123456))).1 = .notFound :=
  c1_issue_verify_single_use emptyOtpStore 0 10 20 "+1" 123456 none
    (by decide) (by decide) (by decide)

/-- Claim C2: a failed verification leaves the OTP store unchanged: after a
Mismatch the record is still there and a later correct attempt within TTL
succeeds, and after an Expired result the record is not purged, so a repeat
verification fails Expired again rather than NotFound. -/
theorem c2_failed_verify_preserves_store (store : OtpStore) (t1 t2 : Int)
    (phone : String) (v : JsVal) (r : OtpRecord)
    (hr : store phone = some r) (hotp : r.otp ≠ "") (ht : t1 ≤ t2) :
    ((verifyOtp store t1 phone v).1 = .mismatch →
      (verifyOtp store t1 phone v).2 = store ∧
      (t2 ≤ r.expiry → (verifyOtp store t2 phone (.vStr r.otp)).1 = .verified)) ∧
    ((verifyOtp store t1 phone v).1 = .expired →
      (verifyOtp store t1 phone v).2 = store ∧
      (verifyOtp store t2 phone v).1 = .expired) := by
  by_cases hphone : phone = ""
  · simp [verifyOtp, hphone]
  · by_cases hv : v.truthy = true
    · constructor
      · intro hm
        have hnexp : ¬ t1 > r.expiry := by
          intro hgt
          simp [verifyOtp, hphone, hv, hr, hgt] at hm
        rcases Bool.eq_false_or_eq_true (strictEqStr r.otp v) with hseq | hseq
        · simp [verifyOtp, hphone, hv, hr, hnexp, hseq] at hm
        · constructor
          · simp [verifyOtp, hphone, hv, hr, hnexp, hseq]
          · intro ht2
            have hnexp2 : ¬ t2 > r.expiry := by omega
            simp [verifyOtp, hphone, hotp, hr, hnexp2, JsVal.truthy,
              strictEqStr]
      · intro he
        have hexp : t1 > r.expiry := by
          by_contra hle
          rcases Bool.eq_false_or_eq_true (strictEqStr r.otp v) with hs | hs <;>
            simp [verifyOtp, hphone, hv, hr, hle, hs] at he
        have hexp2 : t2 > r.expiry := by omega
        constructor
        · simp [verifyOtp, hphone, hv, hr, hexp]
        · simp [verifyOtp, hphone, hv, hr, hexp2]
    · rw [Bool.not_eq_true] at hv
      simp [verifyOtp, hv]

/-- Claim C2 witness. -/
theorem c2_failed_verify_preserves_store_witness :
    let st : OtpStore := emptyOtpStore.set "+1" ⟨"123456", 300000⟩
    ((verifyOtp st 10 "+1" (.vStr "999999")).1 = .mismatch →
      (verifyOtp st 10 "+1" (.vStr "999999")).2 = st ∧
      (20 ≤ (300000 : Int) →
        (verifyOtp st 20 "+1" (.vStr "123456")).1 = .verified)) ∧
    ((verifyOtp st 10 "+1" (.vStr "999999")).1 = .expired →
      (verifyOtp st 10 "+1" (.vStr "999999")).2 = st ∧
      (verifyOtp st 20 "+1" (.vStr "999999")).1 = .expired) :=
  c2_failed_verify_preserves_store (emptyOtpStore.set "+1" ⟨"123456", 300000⟩)
    10 20 "+1" (.vStr "999999") ⟨"123456", 300000⟩ (by decide) (by decide)
    (by decide)

/-- Claim C3 counterexample: the claim says every value of the inclusive
range [100000, 999999] is a possible draw, but 999999 is not a possible
output of crypto.randomInt(100000, 999999), whose upper bound is exclusive. -/
theorem c3_code_range_cex : otpCodePossible 999999 = false := by decide

/-- Claim C3 (amended): every OTP code is drawn from the integer range
[100000, 999998] (the upper bound 999999 of crypto.randomInt is exclusive);
every value of that smaller range is a possible draw, and each is a 6-digit
number. -/
theorem c3_code_range_amended (n : Nat) :
    otpCodePossible n = true ↔ 100000 ≤ n ∧ n ≤ 999998 := by
  simp [otpCodePossible, randomIntPossible]
  omega

/-- Claim C4 counterexample: at the exact boundary clock = expiresAt
(issuance at 0, verification at 300000 = issuance + 5 minutes) a matching
code still verifies successfully, instead of failing Expired as claimed. -/
theorem c4_expiry_boundary_cex :
    (verifyOtp ((sendOtp emptyOtpStore 0 "+1" 123456 none).2) otpTtlMs "+1"
        (.vStr "123456")).1 = .verified ∧
    VerifyResult.verified ≠ VerifyResult.expired := by decide

/-- Claim C4 (amended): verification fails Expired exactly when the clock
strictly exceeds expiresAt = issuance + 5 minutes, even when the submitted
code matches; at any clock up to and including the boundary a matching code
succeeds. -/
theorem c4_expiry_strict (store : OtpStore) (t0 t : Int) (phone : String)
    (code : Nat) (de : Option String)
    (hphone : phone ≠ "") (hcode : toString code ≠ "") :
    (t > t0 + otpTtlMs →
      (verifyOtp ((sendOtp store t0 phone code de).2) t phone
        (.vStr (toString code))).1 = .expired) ∧
    (t ≤ t0 + otpTtlMs →
      (verifyOtp ((sendOtp store t0 phone code de).2) t phone
        (.vStr (toString code))).1 = .verified) := by
  constructor
  · intro hgt
    cases de <;>
      simp [sendOtp, verifyOtp, OtpStore.set, JsVal.truthy, strictEqStr,
        hphone, hcode, hgt]
  · intro hle
    have hnot : ¬ t > t0 + otpTtlMs := by omega
    cases de <;>
      simp [sendOtp, verifyOtp, OtpStore.set, JsVal.truthy, strictEqStr,
        hphone, hcode, hnot]

/-- Claim C4 witness. -/
theorem c4_expiry_strict_witness :
    ((300001 : Int) > 0 + otpTtlMs →
      (verifyOtp ((sendOtp emptyOtpStore 0 "+1" 123456 none).2) 300001 "+1"
        (.vStr (toString 123456))).1 = .expired) ∧
    ((300001 : Int) ≤ 0 + otpTtlMs →
      (verifyOtp ((sendOtp emptyOtpStore 0 "+1" 123456 none).2) 300001 "+1"
        (.vStr (toString 123456))).1 = .verified) :=
  c4_expiry_strict emptyOtpStore 0 300001 "+1" 123456 none (by decide)
    (by decide)


/-- Claim C5: when SMS delivery fails, the OTP record written before the send
stays in the store (no rollback), other keys are untouched, and the caller
receives only the fixed generic failure message, independent of the provider
error. -/
theorem c5_send_failure_no_rollback (store : OtpStore) (now : Int)
    (phone : String) (code : Nat) (err : String) (hphone : phone ≠ "") :
    (sendOtp store now phone code (some err)).1 =
      .sendFailed sendFailureClientMessage ∧
    (sendOtp store now phone code (some err)).2 phone =
      some ⟨toString code, now + otpTtlMs⟩ ∧
    ∀ q, q ≠ phone → (sendOtp store now phone code (some err)).2 q = store q := by
  refine ⟨by simp [sendOtp, hphone], by simp [sendOtp, hphone, OtpStore.set], ?_⟩
  intro q hq
  simp [sendOtp, hphone, OtpStore.set, hq]

/-- Claim C5 witness. -/
theorem c5_send_failure_no_rollback_witness :
    (sendOtp emptyOtpStore 0 "+1" 123456 (some "twilio 21211")).1 =
      .sendFailed sendFailureClientMessage ∧
    (sendOtp emptyOtpStore 0 "+1" 123456 (some "twilio 21211")).2 "+1" =
      some ⟨toString 123456, 0 + otpTtlMs⟩ ∧
    ∀ q, q ≠ "+1" →
      (sendOtp emptyOtpStore 0 "+1" 123456 (some "twilio 21211")).2 q =
        emptyOtpStore q :=
  c5_send_failure_no_rollback emptyOtpStore 0 "+1" 123456 "twilio 21211"
    (by decide)

/-- Claim C6 counterexample: when the second issuance happens to draw the
same code as the first (123456 twice, both possible draws), verifying with
the old code after re-issuance succeeds instead of failing Mismatch. -/
theorem c6_reissue_cex :
    otpCodePossible 123456 = true ∧
    (verifyOtp ((sendOtp ((sendOtp emptyOtpStore 0 "+1" 123456 none).2) 1 "+1"
        123456 none).2) 2 "+1" (.vStr "123456")).1 ≠ .mismatch ∧
    (verifyOtp ((sendOtp ((sendOtp emptyOtpStore 0 "+1" 123456 none).2) 1 "+1"
        123456 none).2) 2 "+1" (.vStr "123456")).1 = .verified := by
  decide

/-- Claim C6 (amended): the store holds at most one record per phone number
and re-issuance overwrites the prior record; provided the newly drawn code
differs from the prior one, the old code then fails Mismatch and the new code
succeeds within TTL. -/
theorem c6_reissue_overwrites (store : OtpStore) (t0 t1 t2 : Int)
    (phone : String) (c1 c2 : Nat) (d1 d2 : Option String)
    (hphone : phone ≠ "") (hne : toString c1 ≠ toString c2)
    (hc1 : toString c1 ≠ "") (hc2 : toString c2 ≠ "")
    (ht2 : t2 ≤ t1 + otpTtlMs) :
    (sendOtp ((sendOtp store t0 phone c1 d1).2) t1 phone c2 d2).2 phone =
      some ⟨toString c2, t1 + otpTtlMs⟩ ∧
    (verifyOtp ((sendOtp ((sendOtp store t0 phone c1 d1).2) t1 phone c2
        d2).2) t2 phone (.vStr (toString c1))).1 = .mismatch ∧
    (verifyOtp ((sendOtp ((sendOtp store t0 phone c1 d1).2) t1 phone c2
        d2).2) t2 phone (.vStr (toString c2))).1 = .verified := by
  have hnot : ¬ t2 > t1 + otpTtlMs := by omega
  have hne' : toString c2 ≠ toString c1 := fun h => hne h.symm
  cases d1 <;> cases d2 <;>
    simp [sendOtp, verifyOtp, OtpStore.set, JsVal.truthy, strictEqStr,
      hphone, hc1, hc2, hne', hnot]

/-- Claim C6 witness. -/
theorem c6_reissue_overwrites_witness :
    (sendOtp ((sendOtp emptyOtpStore 0 "+1" 111111 none).2) 1 "+1" 222222
        none).2 "+1" = some ⟨toString 222222, 1 + otpTtlMs⟩ ∧
    (verifyOtp ((sendOtp ((sendOtp emptyOtpStore 0 "+1" 111111 none).2) 1 "+1"
        222222 none).2) 2 "+1" (.vStr (toString 111111))).1 = .mismatch ∧
    (verifyOtp ((sendOtp ((sendOtp emptyOtpStore 0 "+1" 111111 none).2) 1 "+1"
        222222 none).2) 2 "+1" (.vStr (toString 222222))).1 = .verified :=
  c6_reissue_overwrites emptyOtpStore 0 1 2 "+1" 111111 222222 none none
    (by decide) (by decide) (by decide) (by decide) (by decide)

/-- Claim C7: a PUT against a phone number with no profile record fails
NotFound and leaves the profile store unchanged, while a POST with truthy
name and phone number never fails NotFound: it unconditionally writes the
record for that phone number, whatever the store held before. -/
theorem c7_put_notfound_post_upserts (ustore : UserStore) (phone : String)
    (n a f : Option String) (nm ph : String) (file : Option String)
    (hmiss : ustore phone = none) (hnm : nm ≠ "") (hph : ph ≠ "") :
    (putProfile ustore phone n a f).1 = .notFound "User not found." ∧
    (putProfile ustore phone n a f).2 = ustore ∧
    (postProfile ustore (some nm) (some ph) file).1 =
      .ok "Profile updated successfully." ∧
    (postProfile ustore (some nm) (some ph) file).2 ph =
      some ⟨nm, none, file⟩ := by
  refine ⟨?_, ?_, ?_, ?_⟩
  · simp [putProfile, hmiss]
  · simp [putProfile, hmiss]
  · simp [postProfile, hnm, hph]
  · simp [postProfile, hnm, hph, UserStore.set]

/-- Claim C7 witness. -/
theorem c7_put_notfound_post_upserts_witness :
    (putProfile emptyUserStore "+1" (some "B") none none).1 =
      .notFound "User not found." ∧
    (putProfile emptyUserStore "+1" (some "B") none none).2 =
      emptyUserStore ∧
    (postProfile emptyUserStore (some "A") (some "+1") none).1 =
      .ok "Profile updated successfully." ∧
    (postProfile emptyUserStore (some "A") (some "+1") none).2 "+1" =
      some ⟨"A", none, none⟩ :=
  c7_put_notfound_post_upserts emptyUserStore "+1" (some "B") none none "A"
    "+1" none (by decide) (by decide) (by decide)

/-- Claim C8: a PUT on an existing record writes only the supplied fields:
every field absent from the request keeps its prior value, supplied non-empty
fields are written, and other keys are untouched; in particular creating
name "A" for "+1" and then updating only about to "hi" makes GET "+1" return
name "A" with about "hi". -/
theorem c8_partial_update_frame (ustore : UserStore) (phone : String)
    (u : ProfileRecord) (name about file : Option String)
    (hu : ustore phone = some u) :
    ((putProfile ustore phone name about file).1 =
        .ok "Profile updated successfully." ∧
      ∃ u2, (putProfile ustore phone name about file).2 phone = some u2 ∧
        (name = none → u2.name = u.name) ∧
        (about = none → u2.about = u.about) ∧
        (file = none → u2.profilePicture = u.profilePicture) ∧
        (∀ s, name = some s → s ≠ "" → u2.name = s) ∧
        (∀ s, about = some s → s ≠ "" → u2.about = some s) ∧
        (∀ p, file = some p → u2.profilePicture = some p) ∧
        (∀ q, q ≠ phone →
          (putProfile ustore phone name about file).2 q = ustore q)) ∧
    getProfile ((putProfile ((postProfile emptyUserStore (some "A")
        (some "+1") none).2) "+1" none (some "hi") none).2) "+1" =
      some ⟨"A", some "hi", none⟩ := by
  constructor
  · constructor
    · simp [putProfile, hu]
    · refine ⟨applyPut u name about file, ?_, ?_, ?_, ?_, ?_, ?_, ?_, ?_⟩
      · simp [putProfile, hu, UserStore.set]
      · rintro rfl
        exact applyPut_name_of_none u about file
      · rintro rfl
        exact applyPut_about_of_none u name file
      · rintro rfl
        exact applyPut_pic_of_none u name about
      · rintro s rfl hs
        exact applyPut_name_of_some u s about file hs
      · rintro s rfl hs
        exact applyPut_about_of_some u s name file hs
      · rintro p rfl
        exact applyPut_pic_of_some u p name about
      · intro q hq
        simp [putProfile, hu, UserStore.set, hq]
  · decide

/-- Claim C8 witness. -/
theorem c8_partial_update_frame_witness :
    (((putProfile (emptyUserStore.set "+1" ⟨"A", none, none⟩) "+1" none
        (some "hi") none).1 = .ok "Profile updated successfully." ∧
      ∃ u2, (putProfile (emptyUserStore.set "+1" ⟨"A", none, none⟩) "+1" none
          (some "hi") none).2 "+1" = some u2 ∧
        ((none : Option String) = none → u2.name = "A") ∧
        ((some "hi" : Option String) = none → u2.about = none) ∧
        ((none : Option String) = none → u2.profilePicture = none) ∧
        (∀ s, (none : Option String) = some s → s ≠ "" → u2.name = s) ∧
        (∀ s, (some "hi" : Option String) = some s → s ≠ "" →
          u2.about = some s) ∧
        (∀ p, (none : Option String) = some p → u2.profilePicture = some p) ∧
        (∀ q, q ≠ "+1" →
          (putProfile (emptyUserStore.set "+1" ⟨"A", none, none⟩) "+1" none
            (some "hi") none).2 q =
            (emptyUserStore.set "+1" ⟨"A", none, none⟩) q)) ∧
    getProfile ((putProfile ((postProfile emptyUserStore (some "A")
        (some "+1") none).2) "+1" none (some "hi") none).2) "+1" =
      some ⟨"A", some "hi", none⟩) :=
  c8_partial_update_frame (emptyUserStore.set "+1" ⟨"A", none, none⟩) "+1"
    ⟨"A", none, none⟩ none (some "hi") none (by decide)

/-- Claim C9: the verifier uses strict string equality: with a live record,
any truthy submitted value other than the identical string fails Mismatch —
in particular a JSON number equal in value to the stored 6-digit string. -/
theorem c9_strict_equality_mismatch (store : OtpStore) (now : Int)
    (phone : String) (r : OtpRecord) (v : JsVal)
    (hr : store phone = some r) (hphone : phone ≠ "")
    (hv : v.truthy = true) (hne : v ≠ .vStr r.otp) (ht : now ≤ r.expiry) :
    (verifyOtp store now phone v).1 = .mismatch := by
  have hnexp : ¬ now > r.expiry := by omega
  have hseq : strictEqStr r.otp v = false := by
    cases v with
    | vStr t =>
      have hts : ¬ r.otp = t := by
        intro h
        exact hne (by rw [h])
      simp [strictEqStr, hts]
    | vNum n => simp [strictEqStr]
    | undef => simp [strictEqStr]
  simp [verifyOtp, hphone, hv, hr, hnexp, hseq]

/-- Claim C9 witness: the stored string "123456" against the JSON number
123456. -/
theorem c9_strict_equality_mismatch_witness :
    (verifyOtp (emptyOtpStore.set "+1" ⟨"123456", 300000⟩) 10 "+1"
      (.vNum 123456)).1 = .mismatch :=
  c9_strict_equality_mismatch (emptyOtpStore.set "+1" ⟨"123456", 300000⟩) 10
    "+1" ⟨"123456", 300000⟩ (.vNum 123456) (by decide) (by decide)
    (by decide) (by decide) (by decide)

/-- Claim C10: in a PUT, a field supplied as the empty string behaves exactly
like an absent field — the handler's truthiness check skips it — so the prior
value is kept and no field can be cleared to the empty string. -/
theorem c10_empty_string_like_absent (ustore : UserStore) (phone : String)
    (name about file : Option String) :
    putProfile ustore phone (some "") about file =
      putProfile ustore phone none about file ∧
    putProfile ustore phone name (some "") file =
      putProfile ustore phone name none file ∧
    (∀ u, ustore phone = some u →
      ∃ u2, (putProfile ustore phone (some "") (some "") file).2 phone =
          some u2 ∧ u2.name = u.name ∧ u2.about = u.about) := by
  refine ⟨?_, ?_, ?_⟩
  · cases h : ustore phone <;> simp [putProfile, h, applyPut_name_empty]
  · cases h : ustore phone <;> simp [putProfile, h, applyPut_about_empty]
  · intro u hu
    refine ⟨applyPut u (some "") (some "") file, ?_, ?_, ?_⟩
    · simp [putProfile, hu, UserStore.set]
    · rw [applyPut_name_empty]
      exact applyPut_name_of_none u (some "") file
    · rw [applyPut_about_empty]
      exact applyPut_about_of_none u (some "") file

/-- Claim C10 witness. -/
theorem c10_empty_string_like_absent_witness :
    (putProfile (emptyUserStore.set "+1" ⟨"A", some "x", none⟩) "+1"
        (some "") (some "hi") none =
      putProfile (emptyUserStore.set "+1" ⟨"A", some "x", none⟩) "+1" none
        (some "hi") none ∧
    putProfile (emptyUserStore.set "+1" ⟨"A", some "x", none⟩) "+1"
        (some "Z") (some "") none =
      putProfile (emptyUserStore.set "+1" ⟨"A", some "x", none⟩) "+1"
        (some "Z") none none ∧
    (∀ u, (emptyUserStore.set "+1" ⟨"A", some "x", none⟩) "+1" = some u →
      ∃ u2, (putProfile (emptyUserStore.set "+1" ⟨"A", some "x", none⟩) "+1"
          (some "") (some "") none).2 "+1" = some u2 ∧
        u2.name = u.name ∧ u2.about = u.about)) :=
  c10_empty_string_like_absent (emptyUserStore.set "+1" ⟨"A", some "x", none⟩)
    "+1" (some "Z") (some "hi") none
